import Mathlib

/-!
Shallow embedding of the odoo-mcp-simple bridge (src/odoo_client.py and
src/server.py).  Python values travelling between the dispatcher, the client
and the remote XML-RPC endpoint are modelled by the inductive `Value`; the
remote server is an explicit environment `Env σ` threading a remote state `σ`;
raised Python exceptions are `Except.error` carrying the exception text.
Every client method and dispatcher branch also returns the list of outbound
remote calls it performed (`Event`), so that claims about "no remote call" /
"exactly one remote call" are statable.
-/

/-- Dynamically typed values as exchanged over XML-RPC / the tool protocol. -/
inductive Value where
  | null
  | bool (b : Bool)
  | int (n : Int)
  | str (s : String)
  | list (vs : List Value)
  | dict (fs : List (String × Value))
deriving Repr

/-- Python truthiness of a `Value` (`if x:`). -/
def Value.truthy : Value → Bool
  | .null => false
  | .bool b => b
  | .int n => n != 0
  | .str s => s != ""
  | .list vs => !vs.isEmpty
  | .dict fs => !fs.isEmpty

/-- The `uid` attribute of the client: `None` initially, the raw result of
`common.authenticate` afterwards, which is either the Python `False` or an
integer user id. -/
inductive Uid where
  | none
  | boolFalse
  | id (n : Nat)
deriving Repr, DecidableEq

/-- Python truthiness of the stored `uid` (`if not self.uid:`). -/
def Uid.truthy : Uid → Bool
  | .id n => n != 0
  | _ => false

/-- One outbound `models_endpoint.execute_kw` request, exactly as the client
builds it. -/
structure RemoteCall where
  db : String
  uid : Uid
  password : String
  model : Value
  method : String
  args : List Value
  kwargs : List (String × Value)
deriving Repr

/-- Observable outbound traffic: an `authenticate` round-trip, a `version`
round-trip, or an `execute_kw` round-trip. -/
inductive Event where
  | auth (db user pass : String)
  | version
  | rpc (c : RemoteCall)
deriving Repr

/-- The remote Odoo server, as seen through the two XML-RPC endpoints.  `σ` is
the (opaque) remote state; an `Except.error` models a raised transport or
application exception. -/
structure Env (σ : Type) where
  authenticate : String → String → String → σ → Except String Uid × σ
  version : σ → Except String Value × σ
  execute_kw : RemoteCall → σ → Except String Value × σ

/-- Python `KeyError` lookup `d[k]` on a string-keyed dict; the exception text
is Python's `str(KeyError(k))`, i.e. the quoted key. -/
def dictGet (fs : List (String × Value)) (k : String) : Except String Value :=
  match fs.lookup k with
  | some v => .ok v
  | none => .error ("\x27" ++ k ++ "\x27")

/-- `arguments.get(k, d)`. -/
def argGet (fs : List (String × Value)) (k : String) (d : Value) : Value :=
  (fs.lookup k).getD d

/-- Left-to-right effectful map, as a Python list comprehension evaluates:
the first raised exception aborts the whole comprehension. -/
def exceptMap (f : α → Except String β) : List α → Except String (List β)
  | [] => .ok []
  | x :: xs => do
      let y ← f x
      let ys ← exceptMap f xs
      pure (y :: ys)

/-- The client object of `src/odoo_client.py`.  (The `models` attribute of the
source is initialised to `None` and never read, and the two `ServerProxy`
endpoint objects are determined by `url`; neither carries state of its own.) -/
structure OdooClient where
  url : String
  db : String
  username : String
  password : String
  uid : Uid
deriving Repr, DecidableEq

namespace OdooClient

/-- `OdooClient.__init__`. -/
def init (url db username password : String) : OdooClient :=
  { url := url, db := db, username := username, password := password,
    uid := Uid.none }

/-- `connect`: one `authenticate` round-trip; on success the raw result is
stored in `uid` and the method returns `self.uid is not False`; a raised
exception is caught (the assignment to `self.uid` never happens) and the
method returns `False`. -/
def connect (c : OdooClient) (env : Env σ) (s : σ) :
    ((OdooClient × Bool) × List Event) × σ :=
  match env.authenticate c.db c.username c.password s with
  | (.ok r, s1) =>
      ((({ c with uid := r }, decide (r ≠ Uid.boolFalse)),
        [Event.auth c.db c.username c.password]), s1)
  | (.error _, s1) =>
      (((c, false), [Event.auth c.db c.username c.password]), s1)

/-- `get_version`: one `version` round-trip; an exception is caught and turned
into an error dict. -/
def get_version (_c : OdooClient) (env : Env σ) (s : σ) :
    (Value × List Event) × σ :=
  match env.version s with
  | (.ok v, s1) => ((v, [Event.version]), s1)
  | (.error e, s1) => ((Value.dict [("error", Value.str e)], [Event.version]), s1)

/-- The exception text of the guard `if not self.uid: raise Exception(...)`. -/
def notConnectedErr : String := "No conectado a Odoo"

/-- `search`.  Declared Python defaults: `domain=None`, `limit=100`; the
dynamic `domain or []` replacement is applied to whatever was passed. -/
def search (c : OdooClient) (env : Env σ) (s : σ)
    (model domain limit : Value) : (Except String Value × List Event) × σ :=
  if !c.uid.truthy then ((.error notConnectedErr, []), s)
  else
    let domain := if domain.truthy then domain else Value.list []
    let call : RemoteCall :=
      { db := c.db, uid := c.uid, password := c.password, model := model,
        method := "search", args := [domain], kwargs := [("limit", limit)] }
    let rs := env.execute_kw call s
    ((rs.1, [Event.rpc call]), rs.2)

/-- The declared default of the `limit` parameter of `search`. -/
def search_limit_default : Value := Value.int 100

/-- `params = {}` / `if fields: params['fields'] = fields` as used by `read`
and `search_read`. -/
def fieldsParams (fields : Value) : List (String × Value) :=
  if fields.truthy then [("fields", fields)] else []

/-- `read`. -/
def read (c : OdooClient) (env : Env σ) (s : σ)
    (model ids fields : Value) : (Except String Value × List Event) × σ :=
  if !c.uid.truthy then ((.error notConnectedErr, []), s)
  else
    let call : RemoteCall :=
      { db := c.db, uid := c.uid, password := c.password, model := model,
        method := "read", args := [ids], kwargs := fieldsParams fields }
    let rs := env.execute_kw call s
    ((rs.1, [Event.rpc call]), rs.2)

/-- `search_read`.  `params = {'limit': limit}`, then optionally `fields`. -/
def search_read (c : OdooClient) (env : Env σ) (s : σ)
    (model domain fields limit : Value) :
    (Except String Value × List Event) × σ :=
  if !c.uid.truthy then ((.error notConnectedErr, []), s)
  else
    let domain := if domain.truthy then domain else Value.list []
    let call : RemoteCall :=
      { db := c.db, uid := c.uid, password := c.password, model := model,
        method := "search_read", args := [domain],
        kwargs := ("limit", limit) :: fieldsParams fields }
    let rs := env.execute_kw call s
    ((rs.1, [Event.rpc call]), rs.2)

/-- `create`. -/
def create (c : OdooClient) (env : Env σ) (s : σ)
    (model values : Value) : (Except String Value × List Event) × σ :=
  if !c.uid.truthy then ((.error notConnectedErr, []), s)
  else
    let call : RemoteCall :=
      { db := c.db, uid := c.uid, password := c.password, model := model,
        method := "create", args := [values], kwargs := [] }
    let rs := env.execute_kw call s
    ((rs.1, [Event.rpc call]), rs.2)

/-- `update` (remote method `write`). -/
def update (c : OdooClient) (env : Env σ) (s : σ)
    (model ids values : Value) : (Except String Value × List Event) × σ :=
  if !c.uid.truthy then ((.error notConnectedErr, []), s)
  else
    let call : RemoteCall :=
      { db := c.db, uid := c.uid, password := c.password, model := model,
        method := "write", args := [ids, values], kwargs := [] }
    let rs := env.execute_kw call s
    ((rs.1, [Event.rpc call]), rs.2)

/-- `delete` (remote method `unlink`). -/
def delete (c : OdooClient) (env : Env σ) (s : σ)
    (model ids : Value) : (Except String Value × List Event) × σ :=
  if !c.uid.truthy then ((.error notConnectedErr, []), s)
  else
    let call : RemoteCall :=
      { db := c.db, uid := c.uid, password := c.password, model := model,
        method := "unlink", args := [ids], kwargs := [] }
    let rs := env.execute_kw call s
    ((rs.1, [Event.rpc call]), rs.2)

/-- `get_fields` (remote method `fields_get`). -/
def get_fields (c : OdooClient) (env : Env σ) (s : σ)
    (model : Value) : (Except String Value × List Event) × σ :=
  if !c.uid.truthy then ((.error notConnectedErr, []), s)
  else
    let call : RemoteCall :=
      { db := c.db, uid := c.uid, password := c.password, model := model,
        method := "fields_get", args := [],
        kwargs := [("attributes",
          Value.list [Value.str "string", Value.str "help",
                      Value.str "type", Value.str "required"])] }
    let rs := env.execute_kw call s
    ((rs.1, [Event.rpc call]), rs.2)

/-- The list-comprehension body of `list_models`:
`{'model': m['model'], 'name': m['name']}`; a non-dict element makes the
subscript raise. -/
def projectModelEntry (m : Value) : Except String Value :=
  match m with
  | .dict fs => do
      let mo ← dictGet fs "model"
      let na ← dictGet fs "name"
      pure (Value.dict [("model", mo), ("name", na)])
  | _ => .error "TypeError"

/-- `list_models`: its own guard, then
`search_read('ir.model', [], ['model', 'name'], limit=500)` and the list
comprehension over the result. -/
def list_models (c : OdooClient) (env : Env σ) (s : σ) :
    (Except String Value × List Event) × σ :=
  if !c.uid.truthy then ((.error notConnectedErr, []), s)
  else
    let rs :=
      c.search_read env s (Value.str "ir.model") (Value.list [])
        (Value.list [Value.str "model", Value.str "name"]) (Value.int 500)
    (((match rs.1.1 with
      | .error e => .error e
      | .ok (.list vs) =>
          (match exceptMap projectModelEntry vs with
           | .ok ys => .ok (Value.list ys)
           | .error e => .error e)
      | .ok _ => .error "TypeError"), rs.1.2), rs.2)

end OdooClient

/-! ## String rendering

Python f-string interpolation of a value uses `str()`; containers render via
`repr()` of their elements.  `json.dumps` is modelled structurally (the
`indent=2` pretty-printing whitespace is not reproduced; no theorem below
depends on the rendered text of record payloads). -/

mutual

/-- Python `repr()` of a value. -/
def Value.pyRepr : Value → String
  | .null => "None"
  | .bool true => "True"
  | .bool false => "False"
  | .int n => toString n
  | .str s => "\x27" ++ s ++ "\x27"
  | .list vs => "[" ++ pyReprList vs ++ "]"
  | .dict fs => "\x7b" ++ pyReprFields fs ++ "\x7d"

/-- Comma-separated `repr()`s of list elements. -/
def pyReprList : List Value → String
  | [] => ""
  | [v] => Value.pyRepr v
  | v :: vs => Value.pyRepr v ++ ", " ++ pyReprList vs

/-- Comma-separated `repr()`s of dict items. -/
def pyReprFields : List (String × Value) → String
  | [] => ""
  | [(k, v)] => "\x27" ++ k ++ "\x27: " ++ Value.pyRepr v
  | (k, v) :: fs =>
      "\x27" ++ k ++ "\x27: " ++ Value.pyRepr v ++ ", " ++ pyReprFields fs

end

/-- Python `str()` of a value. -/
def Value.pyStr : Value → String
  | .str s => s
  | v => v.pyRepr

mutual

/-- `json.dumps(v, ensure_ascii=False)`, whitespace aside. -/
def Value.jsonDumps : Value → String
  | .null => "null"
  | .bool true => "true"
  | .bool false => "false"
  | .int n => toString n
  | .str s => "\"" ++ s ++ "\""
  | .list vs => "[" ++ jsonList vs ++ "]"
  | .dict fs => "\x7b" ++ jsonFields fs ++ "\x7d"

/-- Comma-separated JSON renderings of list elements. -/
def jsonList : List Value → String
  | [] => ""
  | [v] => Value.jsonDumps v
  | v :: vs => Value.jsonDumps v ++ ", " ++ jsonList vs

/-- Comma-separated JSON renderings of dict items. -/
def jsonFields : List (String × Value) → String
  | [] => ""
  | [(k, v)] => "\"" ++ k ++ "\": " ++ Value.jsonDumps v
  | (k, v) :: fs =>
      "\"" ++ k ++ "\": " ++ Value.jsonDumps v ++ ", " ++ jsonFields fs

end

/-- Python `len()` (only sized values have one). -/
def Value.pyLen : Value → Except String Nat
  | .str s => .ok s.length
  | .list vs => .ok vs.length
  | .dict fs => .ok fs.length
  | _ => .error "TypeError"

/-! ## The MCP server (`src/server.py`) -/

/-- The `odoo` section of `config.json`. -/
structure Config where
  url : String
  database : String
  username : String
  password : String

/-- The module-level mutable state of `server.py`: the global `odoo_client`,
`None` until the first `initialize_odoo`. -/
structure ServerState where
  odoo_client : Option OdooClient

/-- `initialize_odoo`: build a fresh client from the configuration, store it
in the global, `connect`, and on success fetch the server version (logged
only).  Returns the success flag alongside the new server state. -/
def initialize_odoo (cfg : Config) (env : Env σ) (s : σ) :
    ((Bool × ServerState) × List Event) × σ :=
  let c := OdooClient.init cfg.url cfg.database cfg.username cfg.password
  let cn := c.connect env s
  if cn.1.1.2 then
    let gv := cn.1.1.1.get_version env cn.2
    (((true, { odoo_client := some cn.1.1.1 }), cn.1.2 ++ gv.1.2), gv.2)
  else
    (((false, { odoo_client := some cn.1.1.1 }), cn.1.2), cn.2)

/-- Text returned by `connect_odoo` on success. -/
def connectedOkText : String := "✅ Conectado exitosamente a Odoo"

/-- Text returned by `connect_odoo` on failure. -/
def connectFailedText : String :=
  "❌ Error al conectar con Odoo. Verifica las credenciales."

/-- Text returned when no session exists even after the automatic attempt. -/
def notConnectedText : String :=
  "❌ No hay conexión con Odoo. Usa \x27connect_odoo\x27 primero."

/-- Text returned for a tool name outside the catalog. -/
def unknownToolText (name : String) : String :=
  "❌ Herramienta desconocida: " ++ name

/-- Text produced by the global `except` handler of `call_tool`. -/
def errorText (e : String) : String := "❌ Error: " ++ e

/-- One line of the `list_models` tool response. -/
def formatModelLine (m : Value) : Except String String :=
  match m with
  | .dict fs => do
      let mo ← dictGet fs "model"
      let na ← dictGet fs "name"
      pure ("  • " ++ mo.pyStr ++ ": " ++ na.pyStr ++ "\n")
  | _ => .error "TypeError"

/-- The `list_models` tool response body (first 20 entries shown). -/
def formatModelsList (ms : List Value) : Except String String := do
  let lines ← exceptMap formatModelLine (ms.take 20)
  pure ("📋 Modelos disponibles:\n" ++ String.join lines ++
        "\n(Mostrando 20 de " ++ toString ms.length ++ " modelos)")

/-- One line of the `get_model_fields` tool response. -/
def formatFieldLine (kv : String × Value) : Except String String :=
  match kv.2 with
  | .dict info =>
      let ftype := argGet info "type" (Value.str "unknown")
      let req := if (argGet info "required" (Value.bool false)).truthy
                 then "⚠️" else ""
      let base := "  • " ++ kv.1 ++ " (" ++ ftype.pyStr ++ ") " ++ req ++ "\n"
      let h := argGet info "help" Value.null
      if h.truthy then
        match h with
        | .str hs => .ok (base ++ "    → " ++ hs.take 50 ++ "...\n")
        | .list hv =>
            .ok (base ++ "    → " ++ (Value.list (hv.take 50)).pyStr ++ "...\n")
        | _ => .error "TypeError"
      else .ok base
  | _ => .error "AttributeError"

/-- The `if/elif` chain of `call_tool` after the connection check succeeded:
`c` is the (connected) global client.  Returns the texts produced (or the
exception that escaped towards the global handler), the outbound events, and
the remote state. -/
def dispatch (c : OdooClient) (name : String) (args : List (String × Value))
    (env : Env σ) (s : σ) : (Except String (List String) × List Event) × σ :=
  if name = "list_models" then
    let rs := c.list_models env s
    (((match rs.1.1 with
       | .error e => .error e
       | .ok (.list ms) =>
           (match formatModelsList ms with
            | .ok txt => .ok [txt]
            | .error e => .error e)
       | .ok _ => .error "TypeError"), rs.1.2), rs.2)
  else if name = "search_records" then
    match dictGet args "model" with
    | .error e => ((.error e, []), s)
    | .ok model =>
      let domain := argGet args "domain" (Value.list [])
      let fields := argGet args "fields" (Value.list [])
      let limit := argGet args "limit" (Value.int 10)
      let rs := c.search_read env s model domain fields limit
      (((match rs.1.1 with
         | .error e => .error e
         | .ok records =>
           if !records.truthy then .ok ["No se encontraron registros"]
           else
             (match records.pyLen with
              | .error e => .error e
              | .ok n =>
                  .ok ["🔍 Encontrados " ++ toString n ++ " registros en " ++
                       model.pyStr ++ ":\n" ++ records.jsonDumps])),
        rs.1.2), rs.2)
  else if name = "read_record" then
    match dictGet args "model" with
    | .error e => ((.error e, []), s)
    | .ok model =>
      match dictGet args "record_id" with
      | .error e => ((.error e, []), s)
      | .ok rid =>
        let fields := argGet args "fields" (Value.list [])
        let rs := c.read env s model (Value.list [rid]) fields
        (((match rs.1.1 with
           | .error e => .error e
           | .ok records =>
             if !records.truthy then
               .ok ["No se encontró el registro con ID " ++ rid.pyStr]
             else
               (match records with
                | .list (v :: _) =>
                    .ok ["📖 Registro " ++ model.pyStr ++ "/" ++ rid.pyStr ++
                         ":\n" ++ v.jsonDumps]
                | .str t =>
                    .ok ["📖 Registro " ++ model.pyStr ++ "/" ++ rid.pyStr ++
                         ":\n" ++ (Value.str (t.take 1)).jsonDumps]
                | .dict _ => .error "0"
                | _ => .error "TypeError")),
          rs.1.2), rs.2)
  else if name = "create_record" then
    match dictGet args "model" with
    | .error e => ((.error e, []), s)
    | .ok model =>
      match dictGet args "values" with
      | .error e => ((.error e, []), s)
      | .ok values =>
        let rs := c.create env s model values
        (((match rs.1.1 with
           | .error e => .error e
           | .ok newId =>
               .ok ["✅ Registro creado exitosamente!\n📋 Modelo: " ++
                    model.pyStr ++ "\n🆔 ID: " ++ newId.pyStr]),
          rs.1.2), rs.2)
  else if name = "update_record" then
    match dictGet args "model" with
    | .error e => ((.error e, []), s)
    | .ok model =>
      match dictGet args "record_id" with
      | .error e => ((.error e, []), s)
      | .ok rid =>
        match dictGet args "values" with
        | .error e => ((.error e, []), s)
        | .ok values =>
          let rs := c.update env s model (Value.list [rid]) values
          (((match rs.1.1 with
             | .error e => .error e
             | .ok succ =>
               if succ.truthy then
                 .ok ["✅ Registro " ++ model.pyStr ++ "/" ++ rid.pyStr ++
                      " actualizado exitosamente!"]
               else
                 .ok ["❌ Error al actualizar el registro " ++ model.pyStr ++
                      "/" ++ rid.pyStr]),
            rs.1.2), rs.2)
  else if name = "delete_record" then
    match dictGet args "model" with
    | .error e => ((.error e, []), s)
    | .ok model =>
      match dictGet args "record_id" with
      | .error e => ((.error e, []), s)
      | .ok rid =>
        let rs := c.delete env s model (Value.list [rid])
        (((match rs.1.1 with
           | .error e => .error e
           | .ok succ =>
             if succ.truthy then
               .ok ["🗑️ Registro " ++ model.pyStr ++ "/" ++ rid.pyStr ++
                    " eliminado exitosamente"]
             else
               .ok ["❌ Error al eliminar el registro " ++ model.pyStr ++
                    "/" ++ rid.pyStr]),
          rs.1.2), rs.2)
  else if name = "get_model_fields" then
    match dictGet args "model" with
    | .error e => ((.error e, []), s)
    | .ok model =>
      let rs := c.get_fields env s model
      (((match rs.1.1 with
         | .error e => .error e
         | .ok (.dict fs) =>
             (match exceptMap formatFieldLine (fs.take 15) with
              | .ok lines =>
                  .ok ["📊 Campos del modelo " ++ model.pyStr ++ ":\n" ++
                       String.join lines]
              | .error e => .error e)
         | .ok _ => .error "AttributeError"), rs.1.2), rs.2)
  else
    ((.ok [unknownToolText name], []), s)

/-- The `try` body of `call_tool`: the `connect_odoo` branch, then the
connection check with its automatic `initialize_odoo`, then `dispatch`.  An
`Except.error` is an exception travelling to the global handler. -/
def call_tool_body (cfg : Config) (name : String)
    (args : List (String × Value)) (st : ServerState) (env : Env σ) (s : σ) :
    ((Except String (List String) × ServerState) × List Event) × σ :=
  if name = "connect_odoo" then
    let ini := initialize_odoo cfg env s
    ((((if ini.1.1.1 then .ok [connectedOkText] else .ok [connectFailedText]),
       ini.1.1.2), ini.1.2), ini.2)
  else
    let needsConn :=
      match st.odoo_client with
      | none => true
      | some c => !c.uid.truthy
    let stp :=
      if needsConn then
        let ini := initialize_odoo cfg env s
        ((ini.1.1.2, ini.1.2), ini.2)
      else ((st, []), s)
    match stp.1.1.odoo_client with
    | none => (((.ok [notConnectedText], stp.1.1), stp.1.2), stp.2)
    | some c =>
      if !c.uid.truthy then (((.ok [notConnectedText], stp.1.1), stp.1.2), stp.2)
      else
        let rs := dispatch c name args env stp.2
        (((rs.1.1, stp.1.1), stp.1.2 ++ rs.1.2), rs.2)

/-- `call_tool` with its global `except Exception` handler: every exception
raised by the body becomes a single `errorText` response. -/
def call_tool (cfg : Config) (name : String) (args : List (String × Value))
    (st : ServerState) (env : Env σ) (s : σ) :
    ((List String × ServerState) × List Event) × σ :=
  let b := call_tool_body cfg name args st env s
  ((((match b.1.1.1 with
      | .ok texts => texts
      | .error e => [errorText e]), b.1.1.2), b.1.2), b.2)

/-- An MCP tool declaration: name, description and static JSON input schema. -/
structure Tool where
  name : String
  description : String
  inputSchema : Value

/-- Schema helper: `{"type": "object", "properties": props, "required": req}`. -/
def objSchema (props : List (String × Value)) (req : List String) : Value :=
  Value.dict [("type", Value.str "object"),
              ("properties", Value.dict props),
              ("required", Value.list (req.map Value.str))]

/-- Schema helper: a property with a type and a description. -/
def propSchema (ty desc : String) : Value :=
  Value.dict [("type", Value.str ty), ("description", Value.str desc)]

/-- Schema helper: a property with a type, a description and a default. -/
def propSchemaD (ty desc : String) (d : Value) : Value :=
  Value.dict [("type", Value.str ty), ("description", Value.str desc),
              ("default", d)]

/-- `list_tools`: the fixed catalog advertised to the caller.  It is a plain
constant — the source function reads no state and takes no parameters. -/
def list_tools : List Tool :=
  [ { name := "connect_odoo",
      description := "Conectar con el servidor Odoo",
      inputSchema := objSchema [] [] },
    { name := "list_models",
      description := "Listar todos los modelos disponibles en Odoo",
      inputSchema := objSchema [] [] },
    { name := "search_records",
      description := "Buscar registros en un modelo de Odoo",
      inputSchema := objSchema
        [("model", propSchema "string" "Nombre del modelo (ej: res.partner)"),
         ("domain", propSchemaD "array" "Dominio de búsqueda Odoo"
            (Value.list [])),
         ("fields", propSchemaD "array" "Campos a retornar" (Value.list [])),
         ("limit", propSchemaD "integer" "Límite de registros" (Value.int 10))]
        ["model"] },
    { name := "read_record",
      description := "Leer un registro específico por ID",
      inputSchema := objSchema
        [("model", propSchema "string" "Nombre del modelo"),
         ("record_id", propSchema "integer" "ID del registro"),
         ("fields", propSchemaD "array" "Campos a retornar" (Value.list []))]
        ["model", "record_id"] },
    { name := "create_record",
      description := "Crear un nuevo registro en Odoo",
      inputSchema := objSchema
        [("model", propSchema "string" "Nombre del modelo"),
         ("values", propSchema "object" "Valores del nuevo registro")]
        ["model", "values"] },
    { name := "update_record",
      description := "Actualizar un registro existente",
      inputSchema := objSchema
        [("model", propSchema "string" "Nombre del modelo"),
         ("record_id", propSchema "integer" "ID del registro"),
         ("values", propSchema "object" "Valores a actualizar")]
        ["model", "record_id", "values"] },
    { name := "delete_record",
      description := "Eliminar un registro de Odoo",
      inputSchema := objSchema
        [("model", propSchema "string" "Nombre del modelo"),
         ("record_id", propSchema "integer" "ID del registro a eliminar")]
        ["model", "record_id"] },
    { name := "get_model_fields",
      description := "Obtener información sobre los campos de un modelo",
      inputSchema := objSchema
        [("model", propSchema "string" "Nombre del modelo")]
        ["model"] } ]

/-! ## Environments used to instantiate the theorems

The remote Odoo server is an external collaborator of this repository; the
environments below give it concrete behaviours: an unreachable server, a
rejecting server, a trivially accepting one, and an idealized record store
implementing `create`/`read` with actual storage semantics. -/

/-- A remote that raises on every round-trip (server unreachable). -/
def downEnv : Env Unit :=
  { authenticate := fun _ _ _ s => (.error "connection refused", s),
    version := fun s => (.error "connection refused", s),
    execute_kw := fun _ s => (.error "connection refused", s) }

/-- A remote that rejects the credentials (`authenticate` returns `False`). -/
def rejectEnv : Env Unit :=
  { authenticate := fun _ _ _ s => (.ok Uid.boolFalse, s),
    version := fun s => (.ok (Value.dict []), s),
    execute_kw := fun _ s => (.ok (Value.list []), s) }

/-- A remote that accepts the credentials and answers every data call with an
empty list. -/
def emptyEnv : Env Unit :=
  { authenticate := fun _ _ _ s => (.ok (Uid.id 7), s),
    version := fun s => (.ok (Value.dict []), s),
    execute_kw := fun _ s => (.ok (Value.list []), s) }

/-- A stored record of the idealized remote: its model, its (globally unique)
integer identifier, and the submitted field map. -/
structure StoreRec where
  model : Value
  id : Nat
  fields : List (String × Value)

/-- The idealized remote state: allocated records and the next fresh id. -/
structure Store where
  recs : List StoreRec
  nextId : Nat

/-- Identifiers already allocated are below `nextId`. -/
def Store.wf (st : Store) : Prop := ∀ r ∈ st.recs, r.id < st.nextId

/-- The identifiers requested by a `read` payload (non-integers are ignored). -/
def wantedIds (ids : List Value) : List Int :=
  ids.filterMap fun v => match v with | Value.int n => some n | _ => none

/-- `execute_kw` of the idealized record store: `create` allocates a fresh id
and appends the submitted values; `read` returns the records whose id was
requested, each with an `id` field in front of the stored values. -/
def storeExec (call : RemoteCall) (st : Store) : Except String Value × Store :=
  if call.method = "create" then
    match call.args with
    | [Value.dict kvs] =>
        (.ok (Value.int st.nextId),
         { recs := st.recs ++
             [{ model := call.model, id := st.nextId, fields := kvs }],
           nextId := st.nextId + 1 })
    | _ => (.error "ValueError", st)
  else if call.method = "read" then
    match call.args with
    | [Value.list ids] =>
        let hits := st.recs.filter fun r => (wantedIds ids).contains (r.id : Int)
        (.ok (Value.list (hits.map fun r =>
            Value.dict (("id", Value.int r.id) :: r.fields))), st)
    | _ => (.error "ValueError", st)
  else (.error "unsupported", st)

/-- The idealized record-store remote. -/
def storeEnv : Env Store :=
  { authenticate := fun _ _ _ st => (.ok (Uid.id 1), st),
    version := fun st => (.ok (Value.dict []), st),
    execute_kw := storeExec }

/-- A connected client, used to instantiate theorems. -/
def probeClient : OdooClient :=
  { url := "http://localhost:8069", db := "db", username := "admin",
    password := "pw", uid := Uid.id 2 }

/-- A client that never connected (`uid` is `None`). -/
def freshClient : OdooClient :=
  { url := "http://localhost:8069", db := "db", username := "admin",
    password := "pw", uid := Uid.none }

/-- A sample configuration, used to instantiate theorems. -/
def probeCfg : Config :=
  { url := "http://localhost:8069", database := "db", username := "admin",
    password := "pw" }

/-! ## Helper lemmas -/

/-- `exceptMap` preserves length on success. -/
theorem exceptMap_length (f : α → Except String β) :
    ∀ (xs : List α) (ys : List β), exceptMap f xs = .ok ys →
      ys.length = xs.length := by
  intro xs
  induction xs with
  | nil =>
      intro ys h
      simp [exceptMap] at h
      simp [← h]
  | cons x xs ih =>
      intro ys h
      simp only [exceptMap, bind, Except.bind] at h
      cases hx : f x with
      | error e => rw [hx] at h; exact absurd h (by simp)
      | ok y =>
          rw [hx] at h
          cases hxs : exceptMap f xs with
          | error e => rw [hxs] at h; exact absurd h (by simp)
          | ok ys2 =>
              rw [hxs] at h
              simp only [pure, Except.pure, Except.ok.injEq] at h
              subst h
              simp [ih ys2 hxs]

/-- The single remote call built by `list_models`: a `search_read` on
`ir.model` with the hard-coded `limit=500` and the two projected fields. -/
def listModelsCall (c : OdooClient) : RemoteCall :=
  { db := c.db, uid := c.uid, password := c.password,
    model := Value.str "ir.model", method := "search_read",
    args := [Value.list []],
    kwargs := [("limit", Value.int 500),
               ("fields", Value.list [Value.str "model", Value.str "name"])] }

/-- A server state holding the connected `probeClient`. -/
def probeState : ServerState := { odoo_client := some probeClient }

/-! ## Theorems -/

/-- C4: `connect` performs exactly one `authenticate` round-trip (no retry,
no backoff); it returns `True` exactly when authentication yields a
non-`False` session identifier, and a raised transport exception is caught
locally, making it return `False`. -/
theorem connect_auth_boolean_no_retry (c : OdooClient) (env : Env σ) (s : σ) :
    (c.connect env s).1.2 = [Event.auth c.db c.username c.password] ∧
    ((c.connect env s).1.1.2 = true ↔
      ∃ r, (env.authenticate c.db c.username c.password s).1 = .ok r ∧
        r ≠ Uid.boolFalse) ∧
    (∀ e, (env.authenticate c.db c.username c.password s).1 = .error e →
      (c.connect env s).1.1.2 = false) := by
  rcases h : env.authenticate c.db c.username c.password s with ⟨r | e, s1⟩ <;>
    simp [OdooClient.connect, h]

/-- Witness for `connect_auth_boolean_no_retry`: accepted, rejected and
unreachable remotes, each with the single authentication event. -/
theorem connect_auth_boolean_no_retry_witness :
    (freshClient.connect emptyEnv ()).1.1.2 = true ∧
    (freshClient.connect downEnv ()).1.1.2 = false ∧
    (freshClient.connect downEnv ()).1.2 = [Event.auth "db" "admin" "pw"] :=
  ⟨(connect_auth_boolean_no_retry freshClient emptyEnv ()).2.1.mpr
      ⟨Uid.id 7, rfl, by decide⟩,
   (connect_auth_boolean_no_retry freshClient downEnv ()).2.2
      "connection refused" rfl,
   (connect_auth_boolean_no_retry freshClient downEnv ()).1⟩

/-- C10: when authentication raises inside `connect`, the assignment to the
session identifier never happens: the whole client — `url`, `db`, `username`,
`password`, `uid` — is returned unchanged, `connect` returns `False`, and a
previously live session identifier still passes the live-session check. -/
theorem connect_failure_preserves_state (c : OdooClient) (env : Env σ) (s : σ)
    (e : String) (s1 : σ)
    (h : env.authenticate c.db c.username c.password s = (.error e, s1)) :
    c.connect env s =
      (((c, false), [Event.auth c.db c.username c.password]), s1) ∧
    ((c.connect env s).1.1.1).uid.truthy = c.uid.truthy := by
  constructor <;> simp [OdooClient.connect, h]

/-- Witness for `connect_failure_preserves_state`: a connected client and an
unreachable remote. -/
theorem connect_failure_preserves_state_witness :
    probeClient.connect downEnv () =
      (((probeClient, false), [Event.auth "db" "admin" "pw"]), ()) ∧
    probeClient.uid.truthy = true :=
  ⟨(connect_failure_preserves_state probeClient downEnv ()
      "connection refused" () rfl).1, rfl⟩

/-- C9: in `read` and `search_read` an empty field list behaves exactly like
no field list: the `fields` key is left out of the remote call (so all fields
are requested), and a caller passing the dispatcher's default empty array
cannot restrict the result to zero fields. -/
theorem empty_fields_same_as_none (c : OdooClient) (env : Env σ) (s : σ)
    (model ids domain limit : Value) :
    c.read env s model ids (Value.list []) = c.read env s model ids Value.null ∧
    c.search_read env s model domain (Value.list []) limit =
      c.search_read env s model domain Value.null limit ∧
    OdooClient.fieldsParams (Value.list []) = [] ∧
    OdooClient.fieldsParams Value.null = [] :=
  ⟨rfl, rfl, rfl, rfl⟩

/-- C3: every CRUD wrapper (`search`, `read`, `search_read`, `create`,
`update`, `delete`, `get_fields`, `list_models`) raises the not-connected
error immediately, performing no remote call, when the session identifier is
absent (`None` or `False`); with a live session identifier each performs
exactly one remote call. -/
theorem crud_wrappers_require_session (c : OdooClient) (env : Env σ) (s : σ)
    (model domain fields limit ids values : Value) :
    ((c.uid = Uid.none ∨ c.uid = Uid.boolFalse) →
      (c.search env s model domain limit).1 =
        (.error OdooClient.notConnectedErr, []) ∧
      (c.read env s model ids fields).1 =
        (.error OdooClient.notConnectedErr, []) ∧
      (c.search_read env s model domain fields limit).1 =
        (.error OdooClient.notConnectedErr, []) ∧
      (c.create env s model values).1 =
        (.error OdooClient.notConnectedErr, []) ∧
      (c.update env s model ids values).1 =
        (.error OdooClient.notConnectedErr, []) ∧
      (c.delete env s model ids).1 =
        (.error OdooClient.notConnectedErr, []) ∧
      (c.get_fields env s model).1 =
        (.error OdooClient.notConnectedErr, []) ∧
      (c.list_models env s).1 =
        (.error OdooClient.notConnectedErr, [])) ∧
    (c.uid.truthy = true →
      (∃ call, (c.search env s model domain limit).1.2 = [Event.rpc call]) ∧
      (∃ call, (c.read env s model ids fields).1.2 = [Event.rpc call]) ∧
      (∃ call, (c.search_read env s model domain fields limit).1.2 =
        [Event.rpc call]) ∧
      (∃ call, (c.create env s model values).1.2 = [Event.rpc call]) ∧
      (∃ call, (c.update env s model ids values).1.2 = [Event.rpc call]) ∧
      (∃ call, (c.delete env s model ids).1.2 = [Event.rpc call]) ∧
      (∃ call, (c.get_fields env s model).1.2 = [Event.rpc call]) ∧
      (∃ call, (c.list_models env s).1.2 = [Event.rpc call])) := by
  constructor
  · rintro (h | h) <;>
      simp [OdooClient.search, OdooClient.read, OdooClient.search_read,
            OdooClient.create, OdooClient.update, OdooClient.delete,
            OdooClient.get_fields, OdooClient.list_models, h, Uid.truthy]
  · intro h
    simp only [OdooClient.search, OdooClient.read, OdooClient.search_read,
               OdooClient.create, OdooClient.update, OdooClient.delete,
               OdooClient.get_fields, OdooClient.list_models, h,
               Bool.not_true, Bool.false_eq_true, if_false]
    exact ⟨⟨_, rfl⟩, ⟨_, rfl⟩, ⟨_, rfl⟩, ⟨_, rfl⟩, ⟨_, rfl⟩, ⟨_, rfl⟩,
           ⟨_, rfl⟩, ⟨_, rfl⟩⟩

/-- Witness for `crud_wrappers_require_session`: a never-connected client
raising on `search`, and a connected client making one `create` call. -/
theorem crud_wrappers_require_session_witness :
    (freshClient.search emptyEnv () (Value.str "res.partner") Value.null
        (Value.int 100)).1 = (.error OdooClient.notConnectedErr, []) ∧
    (∃ call, (probeClient.create emptyEnv () (Value.str "res.partner")
        (Value.dict [])).1.2 = [Event.rpc call]) :=
  ⟨((crud_wrappers_require_session freshClient emptyEnv ()
      (Value.str "res.partner") Value.null Value.null (Value.int 100)
      Value.null Value.null).1 (Or.inl rfl)).1,
   ((crud_wrappers_require_session probeClient emptyEnv ()
      (Value.str "res.partner") Value.null Value.null (Value.int 100)
      Value.null (Value.dict [])).2 rfl).2.2.2.1⟩

/-- C5: `search` with an empty domain and the declared default limit sends
`limit=100` on its single remote call, so — the remote honouring the limit —
the identifier list returned has at most the default count of entries; the
`search_records` tool likewise forwards its schema default `limit=10`. -/
theorem search_default_limit_bound (c : OdooClient) (env : Env σ) (s : σ)
    (model : Value) (h : c.uid.truthy = true) :
    (∃ call,
      (c.search env s model (Value.list [])
          OdooClient.search_limit_default).1.2 = [Event.rpc call] ∧
      call.kwargs = [("limit", Value.int 100)] ∧
      ((∀ vs, (env.execute_kw call s).1 = .ok (Value.list vs) →
          vs.length ≤ 100) →
        ∀ vs, (c.search env s model (Value.list [])
            OdooClient.search_limit_default).1.1 = .ok (Value.list vs) →
          vs.length ≤ 100)) ∧
    (∀ args : List (String × Value), args.lookup "limit" = none →
      args.lookup "model" = some model →
      ∃ call, (dispatch c "search_records" args env s).1.2 =
          [Event.rpc call] ∧
        call.kwargs.lookup "limit" = some (Value.int 10)) := by
  constructor
  · refine ⟨{ db := c.db, uid := c.uid, password := c.password, model := model,
              method := "search", args := [Value.list []],
              kwargs := [("limit", Value.int 100)] }, ?_, rfl, ?_⟩
    · simp [OdooClient.search, h, OdooClient.search_limit_default]
    · intro hb vs hv
      refine hb vs ?_
      simpa [OdooClient.search, h, OdooClient.search_limit_default] using hv
  · intro args h1 h2
    refine ⟨{ db := c.db, uid := c.uid, password := c.password, model := model,
              method := "search_read",
              args := [if (argGet args "domain" (Value.list [])).truthy
                       then argGet args "domain" (Value.list [])
                       else Value.list []],
              kwargs := ("limit", Value.int 10) ::
                OdooClient.fieldsParams (argGet args "fields" (Value.list [])) },
            ?_, ?_⟩
    · simp [dispatch, dictGet, h2, argGet, h1, OdooClient.search_read, h]
    · simp [List.lookup]

/-- Witness for `search_default_limit_bound`: a connected client against the
empty remote; the returned identifier list is empty, hence within bound, and
the tool-level call carries `limit=10`. -/
theorem search_default_limit_bound_witness :
    ([] : List Value).length ≤ 100 ∧
    (∃ call, (dispatch probeClient "search_records"
        [("model", Value.str "res.partner")] emptyEnv ()).1.2 =
        [Event.rpc call] ∧
      call.kwargs.lookup "limit" = some (Value.int 10)) := by
  constructor
  · obtain ⟨call, -, -, himp⟩ :=
      (search_default_limit_bound probeClient emptyEnv ()
        (Value.str "res.partner") rfl).1
    refine himp ?_ [] rfl
    intro vs hv
    have h2 : Value.list [] = Value.list vs := Except.ok.inj hv
    injection h2 with h3
    exact h3 ▸ (by decide : ([] : List Value).length ≤ 100)
  · exact (search_default_limit_bound probeClient emptyEnv ()
      (Value.str "res.partner") rfl).2 [("model", Value.str "res.partner")]
      rfl rfl

/-- `list_models` under a live session: its result is the projection of the
single `search_read` response on `ir.model`. -/
theorem list_models_result (c : OdooClient) (env : Env σ) (s : σ)
    (h : c.uid.truthy = true) :
    (c.list_models env s).1.1 =
      match (env.execute_kw (listModelsCall c) s).1 with
      | .error e => .error e
      | .ok (.list vs) =>
          (match exceptMap OdooClient.projectModelEntry vs with
           | .ok ys => .ok (Value.list ys)
           | .error e => .error e)
      | .ok _ => .error "TypeError" := by
  simp only [OdooClient.list_models, OdooClient.search_read, h,
             Bool.not_true, Bool.false_eq_true, if_false]
  rfl

/-- C8: `list_models` makes exactly one remote call, a `search_read` on
`ir.model` with a hard-coded `limit=500`; with the remote honouring the
limit, the returned model list has at most 500 entries, although the
catalog entry advertises listing all available models. -/
theorem list_models_limit_500 (c : OdooClient) (env : Env σ) (s : σ)
    (h : c.uid.truthy = true) :
    (c.list_models env s).1.2 = [Event.rpc (listModelsCall c)] ∧
    (listModelsCall c).method = "search_read" ∧
    (listModelsCall c).model = Value.str "ir.model" ∧
    (listModelsCall c).kwargs.lookup "limit" = some (Value.int 500) ∧
    ((∀ vs, (env.execute_kw (listModelsCall c) s).1 = .ok (Value.list vs) →
        vs.length ≤ 500) →
      ∀ l, (c.list_models env s).1.1 = .ok (Value.list l) → l.length ≤ 500) ∧
    (List.find? (fun t => t.name == "list_models") list_tools).map
        Tool.description = some "Listar todos los modelos disponibles en Odoo"
    := by
  refine ⟨?_, rfl, rfl, ?_, ?_, ?_⟩
  · simp [OdooClient.list_models, OdooClient.search_read, h, listModelsCall,
          OdooClient.fieldsParams, Value.truthy]
  · simp [listModelsCall, List.lookup]
  · intro hb l hl
    rw [list_models_result c env s h] at hl
    rcases hx : (env.execute_kw (listModelsCall c) s).1 with e | v
    · rw [hx] at hl
      exact absurd hl (by simp)
    · rw [hx] at hl
      cases v with
      | list vs =>
          dsimp only at hl
          cases hm : exceptMap OdooClient.projectModelEntry vs with
          | error e => rw [hm] at hl; exact absurd hl (by simp)
          | ok ys =>
              rw [hm] at hl
              simp only [Except.ok.injEq, Value.list.injEq] at hl
              subst hl
              rw [exceptMap_length _ vs ys hm]
              exact hb vs hx
      | null => exact absurd hl (by simp)
      | bool b => exact absurd hl (by simp)
      | int n => exact absurd hl (by simp)
      | str t => exact absurd hl (by simp)
      | dict fs => exact absurd hl (by simp)
  · decide

/-- Witness for `list_models_limit_500`: the connected client against the
empty remote answers with zero models, within the 500 bound, over the single
`search_read` call. -/
theorem list_models_limit_500_witness :
    (probeClient.list_models emptyEnv ()).1.2 =
      [Event.rpc (listModelsCall probeClient)] ∧
    ([] : List Value).length ≤ 500 := by
  have hh := list_models_limit_500 probeClient emptyEnv () rfl
  refine ⟨hh.1, ?_⟩
  refine hh.2.2.2.2.1 ?_ [] rfl
  intro vs hv
  have h2 : Value.list [] = Value.list vs := Except.ok.inj hv
  injection h2 with h3
  exact h3 ▸ (by decide : ([] : List Value).length ≤ 500)

/-- C1: the global `except Exception` handler of `call_tool`: whatever
exception the body raises — connection failure, missing session, remote
rejection, malformed arguments — `call_tool` returns normally with exactly
one textual error response, leaving the state and trace of the body intact;
no exception crosses the dispatch boundary. -/
theorem call_tool_catches_all_exceptions (cfg : Config) (name : String)
    (args : List (String × Value)) (st : ServerState) (env : Env σ) (s : σ)
    (e : String)
    (h : (call_tool_body cfg name args st env s).1.1.1 = .error e) :
    (call_tool cfg name args st env s).1.1.1 = [errorText e] ∧
    (call_tool cfg name args st env s).1.1.1.length = 1 ∧
    (call_tool cfg name args st env s).1.1.2 =
      (call_tool_body cfg name args st env s).1.1.2 ∧
    (call_tool cfg name args st env s).1.2 =
      (call_tool_body cfg name args st env s).1.2 := by
  refine ⟨?_, ?_, rfl, rfl⟩ <;> simp [call_tool, h, errorText]

/-- Witness for `call_tool_catches_all_exceptions`: a `create_record` call
missing its `model` argument raises a `KeyError`, rendered as the single
error text. -/
theorem call_tool_catches_all_exceptions_witness :
    (call_tool probeCfg "create_record" [] probeState emptyEnv ()).1.1.1 =
      [errorText "\x27model\x27"] :=
  (call_tool_catches_all_exceptions probeCfg "create_record" [] probeState
    emptyEnv () "\x27model\x27" rfl).1

/-- The outbound traffic of `initialize_odoo` is the single authentication
attempt, possibly followed by the version probe — never a data call. -/
theorem initialize_odoo_trace (cfg : Config) (env : Env σ) (s : σ) :
    (initialize_odoo cfg env s).1.2 =
        [Event.auth cfg.database cfg.username cfg.password] ∨
    (initialize_odoo cfg env s).1.2 =
        [Event.auth cfg.database cfg.username cfg.password, Event.version] := by
  rcases hA : env.authenticate cfg.database cfg.username cfg.password s
    with ⟨e | r, s1⟩
  · left
    simp [initialize_odoo, OdooClient.init, OdooClient.connect, hA]
  · rcases hV : env.version s1 with ⟨e2 | v, s2⟩ <;>
      simp only [initialize_odoo, OdooClient.init, OdooClient.connect,
                 OdooClient.get_version, hA, hV] <;>
      split <;> simp

/-- C2: a data-operation call (any tool but `connect_odoo`) finding no client
or no live session first attempts the automatic connection; when the client
still holds no live session identifier afterwards, the caller receives the
single not-connected text — not an exception — the trace is exactly the
connection attempt (starting with authentication), and no data call is made.
-/
theorem call_tool_autoconnect_then_not_connected (cfg : Config) (name : String)
    (args : List (String × Value)) (st : ServerState) (env : Env σ) (s : σ)
    (hname : name ≠ "connect_odoo")
    (hbefore : st.odoo_client = none ∨
      ∃ c, st.odoo_client = some c ∧ c.uid.truthy = false)
    (hafter : ∀ c, ((initialize_odoo cfg env s).1.1.2).odoo_client = some c →
      c.uid.truthy = false) :
    (call_tool cfg name args st env s).1.1.1 = [notConnectedText] ∧
    (call_tool cfg name args st env s).1.2 = (initialize_odoo cfg env s).1.2 ∧
    (∃ tr, (call_tool cfg name args st env s).1.2 =
      Event.auth cfg.database cfg.username cfg.password :: tr) ∧
    (∀ ev ∈ (call_tool cfg name args st env s).1.2, ∀ rc,
      ev ≠ Event.rpc rc) := by
  have hneed : (match st.odoo_client with
      | none => true | some c => !c.uid.truthy) = true := by
    rcases hbefore with hb | ⟨c0, hb, hc0⟩
    · simp [hb]
    · simp [hb, hc0]
  have hmain : (call_tool cfg name args st env s).1.1.1 = [notConnectedText] ∧
      (call_tool cfg name args st env s).1.2 =
        (initialize_odoo cfg env s).1.2 := by
    rcases hoc : ((initialize_odoo cfg env s).1.1.2).odoo_client with _ | c2
    · constructor <;> simp [call_tool, call_tool_body, hname, hneed, hoc]
    · have hf := hafter c2 hoc
      constructor <;> simp [call_tool, call_tool_body, hname, hneed, hoc, hf]
  refine ⟨hmain.1, hmain.2, ?_, ?_⟩
  · rcases initialize_odoo_trace cfg env s with h1 | h1 <;>
      rw [hmain.2, h1] <;> exact ⟨_, rfl⟩
  · intro ev hmem rc
    rw [hmain.2] at hmem
    rcases initialize_odoo_trace cfg env s with h1 | h1
    · rw [h1] at hmem
      simp only [List.mem_singleton] at hmem
      subst hmem
      simp
    · rw [h1] at hmem
      simp only [List.mem_cons, List.not_mem_nil, or_false] at hmem
      rcases hmem with hmem | hmem <;> subst hmem <;> simp

/-- Witness for `call_tool_autoconnect_then_not_connected`: a `search_records`
call with no client yet and an unreachable remote. -/
theorem call_tool_autoconnect_then_not_connected_witness :
    (call_tool probeCfg "search_records" [] { odoo_client := none } downEnv
      ()).1.1.1 = [notConnectedText] :=
  (call_tool_autoconnect_then_not_connected probeCfg "search_records" []
    { odoo_client := none } downEnv () (by decide) (Or.inl rfl)
    (by intro c hc; cases Option.some.inj hc; rfl)).1

/-- C6: the advertised catalog is exactly the eight fixed tools (a constant
list with static schemas); `call_tool` routes each advertised name to the
corresponding client call — observable as the single outbound remote call
(`connect_odoo` authenticates; `list_models` and `search_records` issue
`search_read`; `read_record` issues `read`; `create_record` issues `create`;
`update_record` issues `write`; `delete_record` issues `unlink`;
`get_model_fields` issues `fields_get`) — and any other name yields the
unknown-tool text with no outbound call. -/
theorem tool_catalog_and_routing (cfg : Config) (c : OdooClient) (env : Env σ)
    (s : σ) (st : ServerState) (m rid vals : Value)
    (h : c.uid.truthy = true) (hst : st.odoo_client = some c) :
    list_tools.map Tool.name =
      ["connect_odoo", "list_models", "search_records", "read_record",
       "create_record", "update_record", "delete_record",
       "get_model_fields"] ∧
    (∀ name args, name ∉ list_tools.map Tool.name →
      (call_tool cfg name args st env s).1.1.1 = [unknownToolText name] ∧
      (call_tool cfg name args st env s).1.2 = []) ∧
    (∃ tr, (call_tool cfg "connect_odoo" [] st env s).1.2 =
      Event.auth cfg.database cfg.username cfg.password :: tr) ∧
    (call_tool cfg "list_models" [] st env s).1.2 =
      [Event.rpc (listModelsCall c)] ∧
    (∃ call, (call_tool cfg "search_records"
        [("model", m), ("record_id", rid), ("values", vals)] st env s).1.2 =
      [Event.rpc call] ∧ call.method = "search_read" ∧ call.model = m) ∧
    (∃ call, (call_tool cfg "read_record"
        [("model", m), ("record_id", rid), ("values", vals)] st env s).1.2 =
      [Event.rpc call] ∧ call.method = "read" ∧ call.model = m) ∧
    (∃ call, (call_tool cfg "create_record"
        [("model", m), ("record_id", rid), ("values", vals)] st env s).1.2 =
      [Event.rpc call] ∧ call.method = "create" ∧ call.model = m) ∧
    (∃ call, (call_tool cfg "update_record"
        [("model", m), ("record_id", rid), ("values", vals)] st env s).1.2 =
      [Event.rpc call] ∧ call.method = "write" ∧ call.model = m) ∧
    (∃ call, (call_tool cfg "delete_record"
        [("model", m), ("record_id", rid), ("values", vals)] st env s).1.2 =
      [Event.rpc call] ∧ call.method = "unlink" ∧ call.model = m) ∧
    (∃ call, (call_tool cfg "get_model_fields"
        [("model", m), ("record_id", rid), ("values", vals)] st env s).1.2 =
      [Event.rpc call] ∧ call.method = "fields_get" ∧ call.model = m) := by
  have htools : list_tools.map Tool.name =
      ["connect_odoo", "list_models", "search_records", "read_record",
       "create_record", "update_record", "delete_record",
       "get_model_fields"] := rfl
  refine ⟨htools, ?_, ?_, ?_, ?_, ?_, ?_, ?_, ?_, ?_⟩
  · intro name args hn
    have h1 : name ≠ "connect_odoo" := fun he => hn (by rw [he, htools]; decide)
    have h2 : name ≠ "list_models" := fun he => hn (by rw [he, htools]; decide)
    have h3 : name ≠ "search_records" :=
      fun he => hn (by rw [he, htools]; decide)
    have h4 : name ≠ "read_record" := fun he => hn (by rw [he, htools]; decide)
    have h5 : name ≠ "create_record" :=
      fun he => hn (by rw [he, htools]; decide)
    have h6 : name ≠ "update_record" :=
      fun he => hn (by rw [he, htools]; decide)
    have h7 : name ≠ "delete_record" :=
      fun he => hn (by rw [he, htools]; decide)
    have h8 : name ≠ "get_model_fields" :=
      fun he => hn (by rw [he, htools]; decide)
    constructor <;>
      simp [call_tool, call_tool_body, dispatch, h1, h2, h3, h4, h5, h6, h7,
            h8, hst, h]
  · have htr : (call_tool cfg "connect_odoo" [] st env s).1.2 =
        (initialize_odoo cfg env s).1.2 := by
      simp [call_tool, call_tool_body]
    rcases initialize_odoo_trace cfg env s with h1 | h1
    · exact ⟨_, htr.trans h1⟩
    · exact ⟨_, htr.trans h1⟩
  · simp [call_tool, call_tool_body, dispatch, hst, h, OdooClient.list_models,
          OdooClient.search_read, listModelsCall, OdooClient.fieldsParams,
          Value.truthy]
  · refine ⟨{ db := c.db, uid := c.uid, password := c.password, model := m,
              method := "search_read", args := [Value.list []],
              kwargs := [("limit", Value.int 10)] }, ?_, rfl, rfl⟩
    simp [call_tool, call_tool_body, dispatch, hst, h, dictGet, argGet,
          List.lookup, OdooClient.search_read, OdooClient.fieldsParams,
          Value.truthy]
  · refine ⟨{ db := c.db, uid := c.uid, password := c.password, model := m,
              method := "read", args := [Value.list [rid]],
              kwargs := [] }, ?_, rfl, rfl⟩
    simp [call_tool, call_tool_body, dispatch, hst, h, dictGet, argGet,
          List.lookup, OdooClient.read, OdooClient.fieldsParams, Value.truthy]
  · refine ⟨{ db := c.db, uid := c.uid, password := c.password, model := m,
              method := "create", args := [vals], kwargs := [] }, ?_, rfl, rfl⟩
    simp [call_tool, call_tool_body, dispatch, hst, h, dictGet, List.lookup,
          OdooClient.create]
  · refine ⟨{ db := c.db, uid := c.uid, password := c.password, model := m,
              method := "write", args := [Value.list [rid], vals],
              kwargs := [] }, ?_, rfl, rfl⟩
    simp [call_tool, call_tool_body, dispatch, hst, h, dictGet, List.lookup,
          OdooClient.update]
  · refine ⟨{ db := c.db, uid := c.uid, password := c.password, model := m,
              method := "unlink", args := [Value.list [rid]],
              kwargs := [] }, ?_, rfl, rfl⟩
    simp [call_tool, call_tool_body, dispatch, hst, h, dictGet, List.lookup,
          OdooClient.delete]
  · refine ⟨{ db := c.db, uid := c.uid, password := c.password, model := m,
              method := "fields_get", args := [],
              kwargs := [("attributes",
                Value.list [Value.str "string", Value.str "help",
                            Value.str "type", Value.str "required"])] },
            ?_, rfl, rfl⟩
    simp [call_tool, call_tool_body, dispatch, hst, h, dictGet, List.lookup,
          OdooClient.get_fields]

/-- Witness for `tool_catalog_and_routing`: a name outside the catalog gets
the unknown-tool text. -/
theorem tool_catalog_and_routing_witness :
    (call_tool probeCfg "drop_database" [] probeState emptyEnv ()).1.1.1 =
      [unknownToolText "drop_database"] :=
  ((tool_catalog_and_routing probeCfg probeClient emptyEnv () probeState
      Value.null Value.null Value.null rfl rfl).2.1 "drop_database" []
      (by decide)).1

/-- C7: against the idealized record store standing for the remote server,
`create` returns a fresh record identifier and a subsequent `read` on that
identifier returns exactly one record containing every submitted key-value
pair (the stored values behind a leading `id` field). -/
theorem create_then_read_roundtrip (c : OdooClient) (st : Store)
    (model : Value) (kvs : List (String × Value))
    (h : c.uid.truthy = true) (hwf : st.wf) :
    (c.create storeEnv st model (Value.dict kvs)).1.1 =
      .ok (Value.int st.nextId) ∧
    (c.read storeEnv ((c.create storeEnv st model (Value.dict kvs)).2) model
        (Value.list [Value.int st.nextId]) (Value.list [])).1.1 =
      .ok (Value.list [Value.dict (("id", Value.int st.nextId) :: kvs)]) ∧
    ∀ kv ∈ kvs, kv ∈ (("id", Value.int st.nextId) :: kvs) := by
  refine ⟨?_, ?_, fun kv hkv => List.mem_cons_of_mem _ hkv⟩
  · simp [OdooClient.create, h, storeEnv, storeExec]
  · have hstore : (c.create storeEnv st model (Value.dict kvs)).2 =
        { recs := st.recs ++
            [{ model := model, id := st.nextId, fields := kvs }],
          nextId := st.nextId + 1 } := by
      simp [OdooClient.create, h, storeEnv, storeExec]
    rw [hstore]
    simp only [OdooClient.read, h, Bool.not_true, Bool.false_eq_true,
               if_false, OdooClient.fieldsParams, Value.truthy, storeEnv,
               storeExec]
    simp only [wantedIds, List.filterMap, List.filter_append]
    simp
    intro r hr
    exact Nat.ne_of_lt (hwf r hr)

/-- Witness for `create_then_read_roundtrip`: creating a record in the empty
store and reading it back by the returned identifier. -/
theorem create_then_read_roundtrip_witness :
    (probeClient.create storeEnv ⟨[], 0⟩ (Value.str "res.partner")
        (Value.dict [("name", Value.str "Ada")])).1.1 =
      .ok (Value.int 0) ∧
    (probeClient.read storeEnv
        ((probeClient.create storeEnv ⟨[], 0⟩ (Value.str "res.partner")
          (Value.dict [("name", Value.str "Ada")])).2)
        (Value.str "res.partner") (Value.list [Value.int 0])
        (Value.list [])).1.1 =
      .ok (Value.list [Value.dict
        [("id", Value.int 0), ("name", Value.str "Ada")]]) ∧
    ∀ kv ∈ [("name", Value.str "Ada")],
      kv ∈ [("id", Value.int 0), ("name", Value.str "Ada")] :=
  create_then_read_roundtrip probeClient ⟨[], 0⟩ (Value.str "res.partner")
    [("name", Value.str "Ada")] rfl (fun r hr => absurd hr (List.not_mem_nil r))
